import Mathlib

/-!
Shallow embedding of the two rendering components of the erock.io blog:
`src/components/footer.js` (the `Footer` React component) and
`src/templates/og-image.js` (the default-exported open-graph image
template).  Both are single-pass JSX render functions; the embedding
represents the rendered element tree as an explicit inductive `Node`
and each render as a Lean function over the records the JS code reads.
-/

/-- A CSS style value as it appears in a JSX `style={{...}}` object:
either a number (`width: 1200`) or a string (`height: '100%'`). -/
inductive StyleVal where
  | num (n : Int)
  | str (s : String)
deriving DecidableEq, Repr

/-- A rendered element tree: a text node, or an element with a tag name,
a list of (attribute, value) pairs, a style object, and children.
This is the shape of the JSX trees built by `footer.js` and
`og-image.js`. -/
inductive Node where
  | text (s : String)
  | elem (tag : String) (attrs : List (String × String))
      (style : List (String × StyleVal)) (children : List Node)

/-- The `social` object of `site.siteMetadata` that the footer's
`StaticQuery` (query `FooterQuery`) selects: fields `twitter`,
`github`, `stackoverflow`. -/
structure Social where
  twitter : String
  github : String
  stackoverflow : String
deriving DecidableEq, Repr

/-- The `pageContext` prop received by the og-image template.  The
template reads only `description` and `date`; the record may carry
further page fields (here `title` and `slug`), which the template
never touches. -/
structure PageContext where
  description : String
  date : String
  title : String
  slug : String
deriving DecidableEq, Repr

/-- A Markdown post's front-matter record: `title`, `date` (ISO-8601
string) and `description`, as in the YAML header of every file under
`content/blog/`. -/
structure FrontMatter where
  title : String
  date : String
  description : String
deriving DecidableEq, Repr

/-- Explicit state-passing embedding of the body of the og-image
template.  The JS body performs two property reads
(`pageContext.description`, `pageContext.date`) and builds a fixed
`div` tree; each read is threaded through the state so that the
returned final state witnesses what the body did to the record (it
contains no assignment, only reads). -/
def ogImageRun (pc0 : PageContext) : Node × PageContext :=
  let (description, pc1) := (pc0.description, pc0)
  let (date, pc2) := (pc1.date, pc1)
  (Node.elem "div" []
    [("width", StyleVal.num 1200), ("height", StyleVal.num 630),
     ("padding", StyleVal.num 50)]
    [Node.elem "div" []
      [("display", StyleVal.str "flex"),
       ("flexDirection", StyleVal.str "column"),
       ("justifyContent", StyleVal.str "space-between"),
       ("border", StyleVal.str "2px solid black"),
       ("backgroundColor", StyleVal.str "#fff"),
       ("color", StyleVal.str "#fff"),
       ("backgroundImage", StyleVal.str
         "linear-gradient(43deg, #4158D0 0%, #C850C0 50%, #FFCC70 95%)"),
       ("boxShadow", StyleVal.str
         "rgba(0, 0, 0, 0.19) 0px 10px 20px, rgba(0, 0, 0, 0.23) 0px 6px 6px"),
       ("borderTopLeftRadius", StyleVal.num 20),
       ("borderTopRightRadius", StyleVal.num 20),
       ("padding", StyleVal.num 40),
       ("fontSize", StyleVal.num 64),
       ("height", StyleVal.str "100%")]
      [Node.elem "div" [] [] [Node.text description],
       Node.elem "div" []
         [("display", StyleVal.str "flex"),
          ("justifyContent", StyleVal.str "space-between"),
          ("fontSize", StyleVal.num 42),
          ("color", StyleVal.str "#fff")]
         [Node.elem "div" [] []
            [Node.text "Eric Bower · ", Node.text date],
          Node.elem "div" [] [] [Node.text "erock.io"]]]], pc2)

/-- The og-image template's rendered output for a given `pageContext`. -/
def ogImageRender (pc : PageContext) : Node :=
  (ogImageRun pc).1

/-- The og-image template at the JS props level: the default export
destructures `{ pageContext }` from its props, so if the `pageContext`
prop is absent (`undefined`), the first property access
`pageContext.description` throws a `TypeError`; with a `pageContext`
present the body has no other failure path. -/
def ogImageDefault (pageContext : Option PageContext) : Except String Node :=
  match pageContext with
  | none => Except.error "TypeError: cannot read properties of undefined"
  | some pc => Except.ok (ogImageRender pc)

/-- Base URL string the footer prepends to the twitter handle. -/
def twitterBase : String := "https://mobile.twitter.com/"

/-- Base URL string the footer prepends to the github handle. -/
def githubBase : String := "https://github.com/"

/-- The stack-overflow link's `href` is `social.stackoverflow` used
verbatim, i.e. the fixed string prepended to the configured value is
empty. -/
def stackoverflowBase : String := ""

/-- Explicit state-passing embedding of the footer's render prop.
`Footer` wraps a `StaticQuery` whose `FooterQuery` result supplies
`data.site.siteMetadata.social`; the render body reads the three
handle fields and builds a fixed `footer` tree.  `rhythm` is the
spacing helper imported from `src/utils/typography` (a typography
library re-export, not present in the source tree); it only produces
style strings, so it is taken as an abstract argument. -/
def footerRun (rhythm : Rat → String) (s0 : Social) : Node × Social :=
  let (tw, s1) := (s0.twitter, s0)
  let (gh, s2) := (s1.github, s1)
  let (so, s3) := (s2.stackoverflow, s2)
  (Node.elem "footer" []
    [("marginTop", StyleVal.str (rhythm (5/2))),
     ("paddingTop", StyleVal.str (rhythm 1))]
    [Node.elem "div" [] [("float", StyleVal.str "right")]
      [Node.elem "a"
        [("href", "/rss.xml"), ("target", "_blank"),
         ("rel", "noopener noreferrer")] []
        [Node.text "rss"]],
     Node.elem "a"
       [("href", twitterBase ++ tw), ("target", "_blank"),
        ("rel", "noopener noreferrer")] []
       [Node.text "twitter"],
     Node.text " ", Node.text "•", Node.text " ",
     Node.elem "a"
       [("href", githubBase ++ gh), ("target", "_blank"),
        ("rel", "noopener noreferrer")] []
       [Node.text "github"],
     Node.text " ", Node.text "•", Node.text " ",
     Node.elem "a"
       [("href", so), ("target", "_blank"),
        ("rel", "noopener noreferrer")] []
       [Node.text "stack overflow"]], s3)

/-- The footer's rendered output for a given social configuration. -/
def Footer (rhythm : Rat → String) (s : Social) : Node :=
  (footerRun rhythm s).1

mutual

/-- All text nodes of a rendered tree, in document order. -/
def nodeTexts : Node → List String
  | Node.text s => [s]
  | Node.elem _ _ _ children => nodeTextsList children

/-- All text nodes of a list of trees, in document order. -/
def nodeTextsList : List Node → List String
  | [] => []
  | n :: ns => nodeTexts n ++ nodeTextsList ns

end

mutual

/-- All anchor (`a`) elements of a tree, in document order, each as
the pair (concatenated child text, `href` value). -/
def links : Node → List (String × String)
  | Node.text _ => []
  | Node.elem tag attrs _ children =>
      if tag = "a" then
        (String.join (nodeTextsList children),
         (((attrs.find? (fun p => p.1 == "href")).map Prod.snd).getD ""))
          :: linksList children
      else linksList children

/-- All anchor elements of a list of trees. -/
def linksList : List Node → List (String × String)
  | [] => []
  | n :: ns => links n ++ linksList ns

end

/-- The `href` of the anchor whose text content is `label`, if any. -/
def hrefOfLink (n : Node) (label : String) : Option String :=
  ((links n).find? (fun p => p.1 == label)).map Prod.snd

mutual

/-- A tree with the value of every `href` attribute blanked out: what
remains is the render's structure apart from the configured link
targets. -/
def blankHrefs : Node → Node
  | Node.text s => Node.text s
  | Node.elem tag attrs style children =>
      Node.elem tag
        (attrs.map (fun p => if p.1 == "href" then (p.1, "") else p))
        style (blankHrefsList children)

/-- `blankHrefs` over a list of trees. -/
def blankHrefsList : List Node → List Node
  | [] => []
  | n :: ns => blankHrefs n :: blankHrefsList ns

end

/-- The style value bound to key `k` on the root element of `n`. -/
def rootStyle (n : Node) (k : String) : Option StyleVal :=
  match n with
  | Node.text _ => none
  | Node.elem _ _ style _ =>
      ((style.find? (fun p => p.1 == k)).map Prod.snd)

/-- `s` occurs verbatim as a contiguous substring of `t`. -/
def occursIn (s t : String) : Prop := ∃ a b, t = a ++ s ++ b

/-- The page context Gatsby passes to the og-image template for a
post: the post's front-matter fields. -/
def pageContextOf (fm : FrontMatter) : PageContext :=
  { description := fm.description, date := fm.date,
    title := fm.title, slug := "" }

/-- `textIncludes n s` holds when `s` occurs verbatim inside one of the
text nodes of `n`: the rendered text content contains `s`. -/
def textIncludes (n : Node) (s : String) : Prop :=
  ∃ t ∈ nodeTexts n, List.IsInfix s.data t.data

instance (n : Node) (s : String) : Decidable (textIncludes n s) :=
  inferInstanceAs (Decidable (∃ t ∈ nodeTexts n, List.IsInfix s.data t.data))

/-- Attribute list rendered to markup text. -/
def serializeAttrs : List (String × String) → String
  | [] => ""
  | (k, v) :: rest => " " ++ k ++ "=\"" ++ v ++ "\"" ++ serializeAttrs rest

/-- A style value rendered to markup text. -/
def styleValStr : StyleVal → String
  | StyleVal.num n => toString n
  | StyleVal.str s => s

/-- Style object rendered to the text of a `style` attribute. -/
def serializeStyle : List (String × StyleVal) → String
  | [] => ""
  | (k, v) :: rest => k ++ ":" ++ styleValStr v ++ ";" ++ serializeStyle rest

mutual

/-- The byte string of the rendered markup: static HTML output of a
render, with tags, attributes, inline styles and text content. -/
def serialize : Node → String
  | Node.text s => s
  | Node.elem tag attrs style children =>
      "<" ++ tag ++ serializeAttrs attrs
        ++ " style=\"" ++ serializeStyle style ++ "\">"
        ++ serializeList children ++ "</" ++ tag ++ ">"

/-- `serialize` over a list of sibling nodes. -/
def serializeList : List Node → String
  | [] => ""
  | n :: ns => serialize n ++ serializeList ns

end

/-- The anchors of the rendered footer: the RSS link and the three
social links, with their `href` values, in document order. -/
lemma footer_links (r : Rat → String) (s : Social) :
    links (Footer r s) =
      [("rss", "/rss.xml"),
       ("twitter", twitterBase ++ s.twitter),
       ("github", githubBase ++ s.github),
       ("stack overflow", s.stackoverflow)] := rfl

/-- The text content of the rendered og-image, in document order. -/
lemma ogImage_texts (pc : PageContext) :
    nodeTexts (ogImageRender pc) =
      [pc.description, "Eric Bower · ", pc.date, "erock.io"] := rfl

/-- The text content of the rendered footer, in document order;
it does not depend on the social configuration. -/
lemma footer_texts (r : Rat → String) (s : Social) :
    nodeTexts (Footer r s) =
      ["rss", "twitter", " ", "•", " ", "github", " ", "•", " ",
       "stack overflow"] := rfl

/-- C1: for every social configuration with non-empty handles, the
rendered footer contains the three social links, each `href` being a
fixed string concatenated with the configured handle (the twitter base
is `https://mobile.twitter.com/`, the github base `https://github.com/`,
the stack-overflow base the empty string); for github handle `erock`
the `href` is exactly `https://github.com/erock`. -/
theorem footer_social_hrefs_fixed_concat (r : Rat → String) (s : Social)
    (h1 : s.twitter ≠ "") (h2 : s.github ≠ "") (h3 : s.stackoverflow ≠ "") :
    hrefOfLink (Footer r s) "twitter" = some (twitterBase ++ s.twitter) ∧
    hrefOfLink (Footer r s) "github" = some (githubBase ++ s.github) ∧
    hrefOfLink (Footer r s) "stack overflow"
      = some (stackoverflowBase ++ s.stackoverflow) ∧
    (s.github = "erock" →
      hrefOfLink (Footer r s) "github" = some "https://github.com/erock") := by
  refine ⟨rfl, rfl, ?_, ?_⟩
  · have e : hrefOfLink (Footer r s) "stack overflow"
        = some s.stackoverflow := rfl
    rw [e]; simp [stackoverflowBase]
  · intro h
    have e : hrefOfLink (Footer r s) "github"
        = some (githubBase ++ s.github) := rfl
    rw [e, h]; rfl

/-- Witness for C1 at the concrete configuration
(`erock`, `erock`, a stack-overflow profile URL). -/
theorem footer_social_hrefs_fixed_concat_witness :
    hrefOfLink
      (Footer (fun _ => "1rem")
        ⟨"erock", "erock", "https://stackoverflow.com/users/1713216"⟩)
      "github" = some "https://github.com/erock" :=
  (footer_social_hrefs_fixed_concat (fun _ => "1rem")
      ⟨"erock", "erock", "https://stackoverflow.com/users/1713216"⟩
      (by decide) (by decide) (by decide)).2.2.2 rfl

set_option maxRecDepth 100000 in
/-- C2 counterexample: at the front matter of the post
`Simplify testing async I/O in javascript` (date
`2019-04-12T10:00:00.000Z`) and the concrete footer inputs below, the
rendered footer contains neither the author's name `Eric Bower` nor
the supplied date string — not in its text content, nor anywhere in
its serialized markup. -/
theorem footer_output_lacks_author_and_date :
    ¬ textIncludes
        (Footer (fun _ => "1rem")
          ⟨"erock", "erock", "https://stackoverflow.com/users/1713216"⟩)
        "Eric Bower" ∧
    "2019-04-12T10:00:00.000Z" ∉
      nodeTexts
        (Footer (fun _ => "1rem")
          ⟨"erock", "erock", "https://stackoverflow.com/users/1713216"⟩) ∧
    ¬ List.IsInfix "Eric Bower".data
        (serialize
          (Footer (fun _ => "1rem")
            ⟨"erock", "erock",
             "https://stackoverflow.com/users/1713216"⟩)).data ∧
    ¬ List.IsInfix "2019-04-12T10:00:00.000Z".data
        (serialize
          (Footer (fun _ => "1rem")
            ⟨"erock", "erock",
             "https://stackoverflow.com/users/1713216"⟩)).data := by
  refine ⟨by decide, by decide, by decide, by decide⟩

/-- C2 amended: for every front-matter record, both renders complete
without throwing; the og-image output contains the author's name and
the supplied date verbatim, while the footer's output contains
neither: its text content never contains the author's name, and for
every valid date — any date string containing a digit, as every
ISO-8601 timestamp does — it does not contain the date either, since
the footer renders only the fixed, digit-free link labels. -/
theorem renders_total_og_includes_author_date (fm : FrontMatter)
    (r : Rat → String) (s : Social) :
    (∃ n, ogImageDefault (some (pageContextOf fm)) = Except.ok n ∧
      textIncludes n "Eric Bower" ∧ fm.date ∈ nodeTexts n) ∧
    (∃ m, Footer r s = m) ∧
    ¬ textIncludes (Footer r s) "Eric Bower" ∧
    ((∃ c ∈ fm.date.data, c.isDigit) →
      ¬ textIncludes (Footer r s) fm.date) := by
  refine ⟨⟨ogImageRender (pageContextOf fm), rfl, ?_, ?_⟩,
    ⟨Footer r s, rfl⟩, ?_, ?_⟩
  · exact ⟨"Eric Bower · ", by rw [ogImage_texts]; simp, by decide⟩
  · rw [ogImage_texts]; simp [pageContextOf]
  · unfold textIncludes
    rw [footer_texts]
    decide
  · rintro ⟨c, hc, hcd⟩ ⟨t, ht, hinf⟩
    rw [footer_texts] at ht
    have hnod : ∀ u ∈ ["rss", "twitter", " ", "•", " ", "github", " ", "•",
        " ", "stack overflow"], ∀ c ∈ u.data, ¬ c.isDigit := by decide
    exact hnod t ht c (hinf.subset hc) hcd

/-- Witness for the amended C2 at the front matter of the post
`Simplify testing async I/O in javascript`: its ISO-8601 date contains
digits, so the footer's text does not contain it. -/
theorem renders_total_og_includes_author_date_witness :
    ¬ textIncludes
        (Footer (fun _ => "1rem")
          ⟨"erock", "erock", "https://stackoverflow.com/users/1713216"⟩)
        "2019-04-12T10:00:00.000Z" :=
  (renders_total_og_includes_author_date
      ⟨"Simplify testing async I/O in javascript",
       "2019-04-12T10:00:00.000Z", "How to write declarative side-effects"⟩
      (fun _ => "1rem")
      ⟨"erock", "erock", "https://stackoverflow.com/users/1713216"⟩).2.2.2
    (by decide)

/-- C3: rendering twice with the same input gives byte-identical
output on both runs; the second run starts from the state left by the
first, and both the trees and their serialized bytes coincide. -/
theorem render_twice_identical (r : Rat → String) (s : Social)
    (pc : PageContext) :
    (serialize (footerRun r s).1
        = serialize (footerRun r ((footerRun r s).2)).1 ∧
      (footerRun r s).1 = (footerRun r ((footerRun r s).2)).1) ∧
    (serialize (ogImageRun pc).1
        = serialize (ogImageRun ((ogImageRun pc).2)).1 ∧
      (ogImageRun pc).1 = (ogImageRun ((ogImageRun pc).2)).1) :=
  ⟨⟨rfl, rfl⟩, ⟨rfl, rfl⟩⟩

/-- C4: for every `pageContext` record supplying a description string
and a date string, the og-image template renders successfully and
never reaches the error state. -/
theorem ogImage_total_no_error (pc : PageContext) :
    (∃ n, ogImageDefault (some pc) = Except.ok n) ∧
    ∀ err, ogImageDefault (some pc) ≠ Except.error err := by
  exact ⟨⟨ogImageRender pc, rfl⟩, fun err h => by simp [ogImageDefault] at h⟩

/-- C5: for every `pageContext`, the outermost rendered element of the
og-image template has width 1200 and height 630. -/
theorem ogImage_fixed_box_1200_630 (pc : PageContext) :
    rootStyle (ogImageRender pc) "width" = some (StyleVal.num 1200) ∧
    rootStyle (ogImageRender pc) "height" = some (StyleVal.num 630) :=
  ⟨rfl, rfl⟩

/-- C6: for every social configuration the footer contains exactly
four anchors — the RSS link and the three social links — and the
rendered structure apart from the `href` values is the same for every
configuration: no anchor is added, removed or altered by the handles. -/
theorem footer_four_anchors_no_branching (r : Rat → String) (s : Social) :
    (links (Footer r s)).length = 4 ∧
    links (Footer r s) =
      [("rss", "/rss.xml"),
       ("twitter", twitterBase ++ s.twitter),
       ("github", githubBase ++ s.github),
       ("stack overflow", s.stackoverflow)] ∧
    ∀ s', blankHrefs (Footer r s) = blankHrefs (Footer r s') := by
  exact ⟨rfl, rfl, fun s' => rfl⟩

/-- C7: rendering never mutates its input: the state returned by the
state-passing runs of both renders equals the record given to them. -/
theorem render_preserves_input (r : Rat → String) (s : Social)
    (pc : PageContext) :
    (footerRun r s).2 = s ∧ (ogImageRun pc).2 = pc :=
  ⟨rfl, rfl⟩

/-- C8: the og-image output depends only on the `description` and
`date` fields of `pageContext`; two contexts agreeing on those render
identically whatever their other fields. -/
theorem ogImage_depends_only_on_description_date (pc₁ pc₂ : PageContext)
    (h1 : pc₁.description = pc₂.description) (h2 : pc₁.date = pc₂.date) :
    ogImageRender pc₁ = ogImageRender pc₂ := by
  cases pc₁; cases pc₂
  simp only at h1 h2
  subst h1; subst h2
  rfl

/-- Witness for C8 at two concrete contexts differing in `title` and
`slug`. -/
theorem ogImage_depends_only_on_description_date_witness :
    ogImageRender ⟨"a post", "2020-01-01", "Title A", "a"⟩
      = ogImageRender ⟨"a post", "2020-01-01", "Title B", "b"⟩ :=
  ogImage_depends_only_on_description_date
    ⟨"a post", "2020-01-01", "Title A", "a"⟩
    ⟨"a post", "2020-01-01", "Title B", "b"⟩ rfl rfl

/-- C9: for every `pageContext`, the og-image output contains the
literal strings `Eric Bower` and `erock.io`, and contains the supplied
description and date verbatim as untouched text nodes. -/
theorem ogImage_contains_literals_verbatim (pc : PageContext) :
    textIncludes (ogImageRender pc) "Eric Bower" ∧
    "erock.io" ∈ nodeTexts (ogImageRender pc) ∧
    pc.description ∈ nodeTexts (ogImageRender pc) ∧
    pc.date ∈ nodeTexts (ogImageRender pc) := by
  refine ⟨⟨"Eric Bower · ", ?_, by decide⟩, ?_, ?_, ?_⟩ <;>
    rw [ogImage_texts] <;> simp

/-- C10: for every social configuration the RSS anchor's `href` is
exactly `/rss.xml`, and an empty github handle yields the bare base
`https://github.com/` as `href`, since no handle is checked before
interpolation. -/
theorem footer_rss_href_and_empty_handle (r : Rat → String) (s : Social) :
    hrefOfLink (Footer r s) "rss" = some "/rss.xml" ∧
    (s.github = "" →
      hrefOfLink (Footer r s) "github" = some "https://github.com/") := by
  refine ⟨rfl, fun h => ?_⟩
  have e : hrefOfLink (Footer r s) "github"
      = some (githubBase ++ s.github) := rfl
  rw [e, h]; rfl

/-- Witness for C10 at a configuration whose github handle is empty. -/
theorem footer_rss_href_and_empty_handle_witness :
    hrefOfLink (Footer (fun _ => "1rem") ⟨"erock", "", "so"⟩) "github"
      = some "https://github.com/" :=
  (footer_rss_href_and_empty_handle (fun _ => "1rem")
    ⟨"erock", "", "so"⟩).2 rfl
